import Mathlib

/-!
A shallow embedding of `src/main.py` of the 2LAB_project2024 repository: a
FastAPI service exposing CRUD endpoints over a `processed_agent_data`
table together with a WebSocket subscriber set and a broadcast helper.

Modelling conventions:
- Python floats are modelled as rationals (`Rat`); the code only stores and
  returns these values, it never computes with them.
- The `timestamp` datetime is modelled as an opaque `String`; the code only
  passes it through.
- The database table is a list of rows plus the serial primary-key counter.
  A storage fault (an exception raised by the storage engine during
  `db.execute` or `db.commit`) is modelled by an explicit fault parameter.
- FastAPI endpoint outcomes are `Except (Nat × String) α`: either a `200`
  body, or an `HTTPException` with status code and detail string.
-/

set_option autoImplicit false

namespace ProcessedAgentService

/-- `AccelerometerData` pydantic model: fields `x`, `y`, `z` (floats). -/
structure AccelerometerData where
  x : Rat
  y : Rat
  z : Rat
deriving DecidableEq, Repr

/-- `GpsData` pydantic model: fields `latitude`, `longitude` (floats). -/
structure GpsData where
  latitude : Rat
  longitude : Rat
deriving DecidableEq, Repr

/-- `AgentData` pydantic model: nested accelerometer, gps and a timestamp. -/
structure AgentData where
  accelerometer : AccelerometerData
  gps : GpsData
  timestamp : String
deriving DecidableEq, Repr

/-- `ProcessedAgentDataRequest` pydantic model: one ingress batch element. -/
structure ProcessedAgentDataRequest where
  road_state : String
  agent_data : AgentData
deriving DecidableEq, Repr

/-- One row of the `processed_agent_data` table (columns as declared in the
`Table` definition: id, road_state, x, y, z, latitude, longitude, timestamp). -/
structure Row where
  id : Nat
  road_state : String
  x : Rat
  y : Rat
  z : Rat
  latitude : Rat
  longitude : Rat
  timestamp : String
deriving DecidableEq, Repr

/-- `ProcessedAgentDataInDB` pydantic response model. -/
structure ProcessedAgentDataInDB where
  id : Nat
  road_state : String
  x : Rat
  y : Rat
  z : Rat
  latitude : Rat
  longitude : Rat
  timestamp : String
deriving DecidableEq, Repr

/-- Committed database state: the visible rows of the table together with the
serial sequence that assigns the next primary key. -/
structure DbState where
  rows : List Row
  nextId : Nat
deriving DecidableEq, Repr

/-- The empty table with the sequence at 1 (Postgres serial columns start at 1). -/
def emptyDb : DbState := { rows := [], nextId := 1 }

/-- The row produced by `processed_agent_data.insert().values(...)` for one
batch element, with the serial-assigned id: the endpoint copies
`road_state`, the accelerometer components, the gps components and the
timestamp into the columns. -/
def rowOfRequest (i : Nat) (e : ProcessedAgentDataRequest) : Row :=
  { id := i
    road_state := e.road_state
    x := e.agent_data.accelerometer.x
    y := e.agent_data.accelerometer.y
    z := e.agent_data.accelerometer.z
    latitude := e.agent_data.gps.latitude
    longitude := e.agent_data.gps.longitude
    timestamp := e.agent_data.timestamp }

/-- Storage-fault oracle for the batch insert endpoint: whether the i-th
`db.execute(insert)` raises, and whether the final `db.commit()` raises. -/
structure FaultOracle where
  insertFails : Nat → Bool
  commitFails : Bool

/-- The fault-free oracle: every storage call succeeds. -/
def noFault : FaultOracle := { insertFails := fun _ => false, commitFails := false }

/-- The insert loop of `create_processed_agent_data`: executes the inserts in
order, assigning serial ids; returns the pending (uncommitted) rows, or
`none` if some `db.execute` raises. Argument `i` is the 0-based loop index,
`nid` the current value of the id sequence. -/
def execInserts (insertFails : Nat → Bool) : Nat → Nat → List ProcessedAgentDataRequest → Option (List Row)
  | _, _, [] => some []
  | i, nid, e :: rest =>
    if insertFails i then none
    else (execInserts insertFails (i + 1) (nid + 1) rest).map (fun rs => rowOfRequest nid e :: rs)

/-- The rows a batch contributes when every insert succeeds, ids assigned in
input order starting from the sequence value. -/
def batchRows (nid : Nat) : List ProcessedAgentDataRequest → List Row
  | [] => []
  | e :: rest => rowOfRequest nid e :: batchRows (nid + 1) rest

/-- Outcome of one call to the POST endpoint: the HTTP response, the database
state after the call, and the trace of `send_data_to_subscribers` calls the
endpoint made during the request (the source makes none: the helper is never
invoked from any endpoint). -/
structure CreateOutcome where
  response : Except (Nat × String) String
  db : DbState
  dispatches : List (Int × String)
deriving Repr

/-- `POST /processed_agent_data/` (`create_processed_agent_data`): loops over
the batch executing one insert per element, then commits once; on any
exception it raises `HTTPException(500, "data create failed")`, and the
uncommitted inserts are discarded when the session closes. The endpoint
never calls `send_data_to_subscribers`. -/
def create_processed_agent_data (fo : FaultOracle) (data : List ProcessedAgentDataRequest) (db : DbState) : CreateOutcome :=
  match execInserts fo.insertFails 0 db.nextId data with
  | none =>
      { response := .error (500, "data create failed"), db := db, dispatches := [] }
  | some pending =>
      if fo.commitFails then
        { response := .error (500, "data create failed"), db := db, dispatches := [] }
      else
        { response := .ok "data added successfully"
          db := { rows := db.rows ++ pending, nextId := db.nextId + data.length }
          dispatches := [] }

/-- An exception raised inside one of the endpoint `try` blocks: either a
fastapi `HTTPException` raised by the handler itself, or an exception coming
from the storage layer. `str e` renders an `HTTPException` as
"status: detail" (starlette) and a storage exception as its message. -/
inductive PyExc where
  | http (status : Nat) (detail : String)
  | storage (msg : String)
deriving DecidableEq, Repr

/-- Python `str(e)` for the exceptions modelled here. -/
def PyExc.str : PyExc → String
  | .http s d => toString s ++ ": " ++ d
  | .storage m => m

/-- The catch-all `except Exception as e` wrapper shared by the read, list,
update and delete endpoints: any exception raised inside the `try` block —
including an `HTTPException(404)` the handler itself raised — is re-raised
as `HTTPException(500, "Error: " + str(e))`. -/
def catchAll {α : Type} : Except PyExc α → Except (Nat × String) α
  | .ok v => .ok v
  | .error e => .error (500, "Error: " ++ e.str)

/-- `GET /processed_agent_data/{id}` (`read_processed_agent_data`): selects the
row with the given id (`fetchone`, i.e. the first match); raises
`HTTPException(404, "data not exist")` when absent — but that raise sits
inside the `try`, so the catch-all converts it to a 500. `fault = some msg`
models the select raising a storage exception with message `msg`. -/
def read_processed_agent_data (fault : Option String) (pid : Nat) (db : DbState) : Except (Nat × String) ProcessedAgentDataInDB :=
  catchAll <|
    match fault with
    | some msg => .error (.storage msg)
    | none =>
      match db.rows.find? (fun r => r.id == pid) with
      | none => .error (.http 404 "data not exist")
      | some data =>
          .ok { id := data.id
                road_state := data.road_state
                x := data.x
                y := data.y
                z := data.z
                latitude := data.latitude
                longitude := data.longitude
                timestamp := data.timestamp }

/-- `GET /processed_agent_data/` (`list_processed_agent_data`): full scan,
returning every row as a `ProcessedAgentDataInDB`. -/
def list_processed_agent_data (fault : Option String) (db : DbState) : Except (Nat × String) (List ProcessedAgentDataInDB) :=
  catchAll <|
    match fault with
    | some msg => .error (.storage msg)
    | none =>
      .ok (db.rows.map (fun element =>
        { id := element.id
          road_state := element.road_state
          x := element.x
          y := element.y
          z := element.z
          latitude := element.latitude
          longitude := element.longitude
          timestamp := element.timestamp }))

/-- The `update_values` applied by `update_processed_agent_data` to a matching
row: full replace of every column except `id` (the dict has no `id` key). -/
def applyUpdate (data : ProcessedAgentDataRequest) (r : Row) : Row :=
  { id := r.id
    road_state := data.road_state
    x := data.agent_data.accelerometer.x
    y := data.agent_data.accelerometer.y
    z := data.agent_data.accelerometer.z
    latitude := data.agent_data.gps.latitude
    longitude := data.agent_data.gps.longitude
    timestamp := data.agent_data.timestamp }

/-- The table rows after executing `UPDATE ... WHERE id = pid ... VALUES
update_values`: every row matching the predicate is replaced by its
update_values image, all other rows are untouched. -/
def updateRows (pid : Nat) (data : ProcessedAgentDataRequest) (rows : List Row) : List Row :=
  rows.map (fun r => if r.id == pid then applyUpdate data r else r)

/-- `PUT /processed_agent_data/{id}` (`update_processed_agent_data`): first a
select by id; if no row exists it raises `HTTPException(404, "data not exist")`
— again inside the `try`, so the catch-all converts it to a 500. Otherwise
it executes `UPDATE ... WHERE id = pid ... RETURNING`, fetches the returned
row image, commits, and builds the response from that returned row (not from
the request body). `fault = some msg` models the first storage call raising
with message `msg`, in which case nothing is committed. -/
def update_processed_agent_data (fault : Option String) (pid : Nat) (data : ProcessedAgentDataRequest) (db : DbState) :
    Except (Nat × String) ProcessedAgentDataInDB × DbState :=
  match fault with
  | some msg => (catchAll (.error (.storage msg)), db)
  | none =>
    match db.rows.find? (fun r => r.id == pid) with
    | none => (catchAll (.error (.http 404 "data not exist")), db)
    | some _ =>
      match (updateRows pid data db.rows).find? (fun r => r.id == pid) with
      | none =>
          -- `updated_data` is None and `updated_data.id` raises AttributeError;
          -- unreachable here because the select above found a matching row.
          (catchAll (.error (.storage "AttributeError")), db)
      | some updated_data =>
          (.ok { id := updated_data.id
                 road_state := updated_data.road_state
                 x := updated_data.x
                 y := updated_data.y
                 z := updated_data.z
                 latitude := updated_data.latitude
                 longitude := updated_data.longitude
                 timestamp := updated_data.timestamp },
           { db with rows := updateRows pid data db.rows })

/-- `DELETE /processed_agent_data/{id}` (`delete_processed_agent_data`):
executes `DELETE ... WHERE id = pid` and commits, with no existence check,
then returns the success status; on a storage exception the catch-all
produces the 500 and nothing is committed. -/
def delete_processed_agent_data (fault : Option String) (pid : Nat) (db : DbState) :
    Except (Nat × String) String × DbState :=
  match fault with
  | some msg => (catchAll (.error (.storage msg)), db)
  | none =>
      (.ok "data deleted successfully",
       { db with rows := db.rows.filter (fun r => r.id != pid) })

/-!
The WebSocket side: `subscriptions: Set[WebSocket] = set()` is a process-wide
set holding raw WebSocket connection objects. Python set membership is
equality-based, and an `int` never equals a WebSocket object, so the two
kinds of value are modelled as distinct constructors of one dynamic value
type.
-/

/-- A Python value that can meet the `subscriptions` set: either an integer
(as passed for `user_id`) or a WebSocket connection handle. Distinct
constructors never compare equal, exactly as an int never equals a
WebSocket object in Python. -/
inductive PyVal where
  | int (n : Int)
  | websocket (handle : Nat)
deriving DecidableEq, Repr

/-- `PyVal.isWebsocket v` is true when `v` is a WebSocket connection handle. -/
def PyVal.isWebsocket : PyVal → Bool
  | .websocket _ => true
  | .int _ => false

/-- Python `set.add`: inserts; no-op when already present. The set is
modelled as a duplicate-free list. -/
def set_add (x : PyVal) (s : List PyVal) : List PyVal :=
  if x ∈ s then s else s ++ [x]

/-- Python `set.remove` as used in `websocket_endpoint`: removes the element
when present, raises `KeyError` when absent (`set.discard` would be the
no-op variant; the source uses `remove`). -/
def set_remove (x : PyVal) (s : List PyVal) : Except String (List PyVal) :=
  if x ∈ s then .ok (s.erase x) else .error "KeyError"

/-- The `/ws/` endpoint lifecycle for one connection: accept, add the socket
to `subscriptions`, loop on `receive_text` until `WebSocketDisconnect`, then
`subscriptions.remove(websocket)`. The result is the subscription set after
the connection ends (or a `KeyError` if the socket were absent at removal). -/
def websocket_endpoint (ws : PyVal) (subscriptions : List PyVal) : Except String (List PyVal) :=
  set_remove ws (set_add ws subscriptions)

/-- `send_data_to_subscribers(user_id, data)`: guarded by
`if user_id in subscriptions`. The membership test compares the integer
`user_id` against the WebSocket members of the set. Were the guard to hold,
the body evaluates `subscriptions[user_id]`, which raises `TypeError`
because a set is not subscriptable; otherwise the function returns having
sent nothing. The result is the list of (socket, payload) deliveries made. -/
def send_data_to_subscribers (user_id : Int) (data : String) (subscriptions : List PyVal) :
    Except String (List (PyVal × String)) :=
  if PyVal.int user_id ∈ subscriptions then
    .error "TypeError: set object is not subscriptable"
  else
    .ok []

/-! Concrete sample data, used by witnesses and counterexamples. -/

/-- A sample ingress batch element (the scenario from the test properties). -/
def sampleRequest : ProcessedAgentDataRequest :=
  { road_state := "clear"
    agent_data :=
      { accelerometer := { x := 1, y := 2, z := 3 }
        gps := { latitude := 10, longitude := 20 }
        timestamp := "2024-01-01T00:00:00Z" } }

/-- A second sample element with different values in every field. -/
def sampleRequest2 : ProcessedAgentDataRequest :=
  { road_state := "bumpy"
    agent_data :=
      { accelerometer := { x := 4, y := 5, z := 6 }
        gps := { latitude := 30, longitude := 40 }
        timestamp := "2024-02-02T12:00:00Z" } }

/-- A database state holding one committed row with id 1. -/
def sampleDb : DbState :=
  { rows := [rowOfRequest 1 sampleRequest], nextId := 2 }

/-! Helper lemmas about the embedded operations. -/

/-- When the insert loop completes without a raise, the pending rows are
exactly the batch rows with serial ids assigned in input order. -/
theorem execInserts_eq_some (f : Nat → Bool) (data : List ProcessedAgentDataRequest) :
    ∀ (i nid : Nat) (pending : List Row),
      execInserts f i nid data = some pending → pending = batchRows nid data := by
  induction data with
  | nil =>
    intro i nid pending h
    simp [execInserts] at h
    simp [batchRows, h]
  | cons e rest ih =>
    intro i nid pending h
    by_cases hf : f i = true
    · simp [execInserts, hf] at h
    · simp [execInserts, hf] at h
      obtain ⟨rs, hrs, hp⟩ := h
      rw [← hp, batchRows, ih _ _ _ hrs]

/-- Updating rows never changes the sequence of row ids. -/
theorem updateRows_map_id (pid : Nat) (data : ProcessedAgentDataRequest) (rows : List Row) :
    (updateRows pid data rows).map Row.id = rows.map Row.id := by
  induction rows with
  | nil => rfl
  | cons r rest ih =>
    simp only [updateRows, List.map_cons] at ih ⊢
    rw [ih]
    by_cases h : r.id == pid <;> simp [h, applyUpdate]

/-- Searching the updated rows for the target id finds the updated image of
whatever row the search on the original rows finds. -/
theorem updateRows_find? (pid : Nat) (data : ProcessedAgentDataRequest) (rows : List Row) :
    (updateRows pid data rows).find? (fun r => r.id == pid) =
      (rows.find? (fun r => r.id == pid)).map
        (fun r => if r.id == pid then applyUpdate data r else r) := by
  unfold updateRows
  rw [List.find?_map]
  congr 1
  congr 1
  funext r
  by_cases h : r.id == pid
  · simp [Function.comp, h, applyUpdate]
  · simp [Function.comp, h]

/-- The successful path of the update endpoint, characterized: when the select
finds row `r0`, the endpoint commits the updated rows and responds with the
updated row image read back from storage. -/
theorem update_found (pid : Nat) (data : ProcessedAgentDataRequest) (db : DbState) (r0 : Row)
    (hr0 : db.rows.find? (fun r => r.id == pid) = some r0) :
    update_processed_agent_data none pid data db =
      (.ok { id := r0.id
             road_state := data.road_state
             x := data.agent_data.accelerometer.x
             y := data.agent_data.accelerometer.y
             z := data.agent_data.accelerometer.z
             latitude := data.agent_data.gps.latitude
             longitude := data.agent_data.gps.longitude
             timestamp := data.agent_data.timestamp },
       { db with rows := updateRows pid data db.rows }) := by
  have hid : (r0.id == pid) = true := by
    have := List.find?_some hr0
    simpa using this
  have hfind : (updateRows pid data db.rows).find? (fun r => r.id == pid) =
      some (applyUpdate data r0) := by
    rw [updateRows_find?, hr0, Option.map_some']
    rw [if_pos hid]
  unfold update_processed_agent_data
  rw [hr0, hfind]
  rfl

/-! The claim theorems. -/

/-- Claim C1: for every batch and every pattern of storage faults, the POST
endpoint either reports success and the visible rows grow by exactly the
whole batch (ids assigned in input order), or it reports the 500 error and
the visible rows are unchanged — never a partial subset. -/
theorem create_processed_agent_data_atomic (fo : FaultOracle) (data : List ProcessedAgentDataRequest) (db : DbState) :
    ((create_processed_agent_data fo data db).response = .ok "data added successfully" ∧
      (create_processed_agent_data fo data db).db.rows = db.rows ++ batchRows db.nextId data) ∨
    ((create_processed_agent_data fo data db).response = .error (500, "data create failed") ∧
      (create_processed_agent_data fo data db).db.rows = db.rows) := by
  unfold create_processed_agent_data
  cases h : execInserts fo.insertFails 0 db.nextId data with
  | none => exact Or.inr ⟨rfl, rfl⟩
  | some pending =>
    cases hc : fo.commitFails with
    | true => exact Or.inr ⟨rfl, rfl⟩
    | false =>
      refine Or.inl ⟨rfl, ?_⟩
      rw [execInserts_eq_some fo.insertFails data 0 db.nextId pending h]
      rfl

/-- Claim C2 counterexample: a fault-free one-element batch commits one record
and returns success, yet the endpoint makes zero dispatch calls — not one
per committed record as claimed. -/
theorem create_commits_without_dispatch :
    (create_processed_agent_data noFault [sampleRequest] emptyDb).response = .ok "data added successfully" ∧
    (create_processed_agent_data noFault [sampleRequest] emptyDb).db.rows.length = 1 ∧
    (create_processed_agent_data noFault [sampleRequest] emptyDb).dispatches = [] :=
  ⟨rfl, rfl, rfl⟩

/-- Claim C2 (amended): the POST endpoint never calls the broadcast helper at
all — on every batch, every database state and every fault pattern its
dispatch trace is empty, so no subscriber is ever notified by ingest. -/
theorem create_never_dispatches (fo : FaultOracle) (data : List ProcessedAgentDataRequest) (db : DbState) :
    (create_processed_agent_data fo data db).dispatches = [] := by
  unfold create_processed_agent_data
  cases execInserts fo.insertFails 0 db.nextId data with
  | none => rfl
  | some pending => cases fo.commitFails <;> rfl

/-- Claim C3: reading an id absent from the store does NOT produce a 404: the
handler raises `HTTPException(404)` inside its own `try`, the catch-all
`except Exception` intercepts it, and the caller receives a 500 whose
detail wraps the swallowed 404. -/
theorem read_absent_id_returns_500 :
    read_processed_agent_data none 999 emptyDb =
      .error (500, "Error: 404: data not exist") := rfl

/-- Claim C4: creating one record and reading back the row under the assigned
id returns every field of the input unchanged, with the server-assigned id;
the freshness hypothesis says the serial sequence has not been reused. -/
theorem create_then_read_roundtrip (r : ProcessedAgentDataRequest) (db : DbState)
    (hfresh : ∀ row ∈ db.rows, row.id ≠ db.nextId) :
    (create_processed_agent_data noFault [r] db).response = .ok "data added successfully" ∧
    read_processed_agent_data none db.nextId (create_processed_agent_data noFault [r] db).db =
      .ok { id := db.nextId
            road_state := r.road_state
            x := r.agent_data.accelerometer.x
            y := r.agent_data.accelerometer.y
            z := r.agent_data.accelerometer.z
            latitude := r.agent_data.gps.latitude
            longitude := r.agent_data.gps.longitude
            timestamp := r.agent_data.timestamp } := by
  have hc : create_processed_agent_data noFault [r] db =
      { response := .ok "data added successfully"
        db := { rows := db.rows ++ [rowOfRequest db.nextId r], nextId := db.nextId + 1 }
        dispatches := [] } := rfl
  refine ⟨by rw [hc], ?_⟩
  rw [hc]
  unfold read_processed_agent_data
  have hnone : db.rows.find? (fun row => row.id == db.nextId) = none := by
    rw [List.find?_eq_none]
    intro x hx
    simpa using hfresh x hx
  rw [List.find?_append, hnone]
  simp [rowOfRequest, catchAll]

/-- Witness for C4 at a concrete input: the empty store and the sample record. -/
theorem create_then_read_roundtrip_witness :
    (∀ row ∈ emptyDb.rows, row.id ≠ emptyDb.nextId) ∧
    ((create_processed_agent_data noFault [sampleRequest] emptyDb).response = .ok "data added successfully" ∧
      read_processed_agent_data none emptyDb.nextId (create_processed_agent_data noFault [sampleRequest] emptyDb).db =
        .ok { id := emptyDb.nextId
              road_state := sampleRequest.road_state
              x := sampleRequest.agent_data.accelerometer.x
              y := sampleRequest.agent_data.accelerometer.y
              z := sampleRequest.agent_data.accelerometer.z
              latitude := sampleRequest.agent_data.gps.latitude
              longitude := sampleRequest.agent_data.gps.longitude
              timestamp := sampleRequest.agent_data.timestamp }) :=
  ⟨by simp [emptyDb], create_then_read_roundtrip sampleRequest emptyDb (by simp [emptyDb])⟩

/-- Claim C5: for an id present in the store, the update endpoint returns the
post-update row image (as stored), and reading the id back afterwards
returns exactly the update input in every field except the id. -/
theorem update_then_read_roundtrip (pid : Nat) (r2 : ProcessedAgentDataRequest) (db : DbState)
    (hex : (db.rows.find? (fun r => r.id == pid)).isSome) :
    (update_processed_agent_data none pid r2 db).1 =
      .ok { id := pid
            road_state := r2.road_state
            x := r2.agent_data.accelerometer.x
            y := r2.agent_data.accelerometer.y
            z := r2.agent_data.accelerometer.z
            latitude := r2.agent_data.gps.latitude
            longitude := r2.agent_data.gps.longitude
            timestamp := r2.agent_data.timestamp } ∧
    read_processed_agent_data none pid (update_processed_agent_data none pid r2 db).2 =
      .ok { id := pid
            road_state := r2.road_state
            x := r2.agent_data.accelerometer.x
            y := r2.agent_data.accelerometer.y
            z := r2.agent_data.accelerometer.z
            latitude := r2.agent_data.gps.latitude
            longitude := r2.agent_data.gps.longitude
            timestamp := r2.agent_data.timestamp } := by
  obtain ⟨r0, hr0⟩ := Option.isSome_iff_exists.mp hex
  have hid : r0.id = pid := by
    have := List.find?_some hr0
    simpa using this
  have hb : (r0.id == pid) = true := by simp [hid]
  rw [update_found pid r2 db r0 hr0]
  refine ⟨by rw [hid], ?_⟩
  unfold read_processed_agent_data
  have hfind : (updateRows pid r2 db.rows).find? (fun r => r.id == pid) =
      some (applyUpdate r2 r0) := by
    rw [updateRows_find?, hr0, Option.map_some', if_pos hb]
  simp only [hfind, catchAll, applyUpdate, hid]

/-- Witness for C5: the one-row sample store, updated at id 1 with the second
sample record. -/
theorem update_then_read_roundtrip_witness :
    ((sampleDb.rows.find? (fun r => r.id == 1)).isSome) ∧
    ((update_processed_agent_data none 1 sampleRequest2 sampleDb).1 =
      .ok { id := 1
            road_state := sampleRequest2.road_state
            x := sampleRequest2.agent_data.accelerometer.x
            y := sampleRequest2.agent_data.accelerometer.y
            z := sampleRequest2.agent_data.accelerometer.z
            latitude := sampleRequest2.agent_data.gps.latitude
            longitude := sampleRequest2.agent_data.gps.longitude
            timestamp := sampleRequest2.agent_data.timestamp } ∧
    read_processed_agent_data none 1 (update_processed_agent_data none 1 sampleRequest2 sampleDb).2 =
      .ok { id := 1
            road_state := sampleRequest2.road_state
            x := sampleRequest2.agent_data.accelerometer.x
            y := sampleRequest2.agent_data.accelerometer.y
            z := sampleRequest2.agent_data.accelerometer.z
            latitude := sampleRequest2.agent_data.gps.latitude
            longitude := sampleRequest2.agent_data.gps.longitude
            timestamp := sampleRequest2.agent_data.timestamp }) :=
  ⟨by decide, update_then_read_roundtrip 1 sampleRequest2 sampleDb (by decide)⟩

/-- Claim C6 counterexample: two storage errors differing only in their
internal message produce different response bodies on the read endpoint —
the detail string is NOT independent of the internal error content. -/
theorem storage_error_detail_not_generic :
    read_processed_agent_data (some "connection refused") 1 emptyDb =
      .error (500, "Error: connection refused") ∧
    read_processed_agent_data (some "disk full") 1 emptyDb =
      .error (500, "Error: disk full") ∧
    ("Error: connection refused" : String) ≠ "Error: disk full" :=
  ⟨rfl, rfl, by decide⟩

/-- Claim C6 (amended): for every storage error in the read, update and delete
endpoints the response detail embeds the internal exception message — it is
the string "Error: " followed by str(e) — so the body varies with the
internal error; only the create endpoint uses a fixed generic detail. -/
theorem storage_error_detail_embeds_message (msg : String) (pid : Nat) (r2 : ProcessedAgentDataRequest) (db : DbState) :
    read_processed_agent_data (some msg) pid db = .error (500, "Error: " ++ msg) ∧
    (update_processed_agent_data (some msg) pid r2 db).1 = .error (500, "Error: " ++ msg) ∧
    (delete_processed_agent_data (some msg) pid db).1 = .error (500, "Error: " ++ msg) :=
  ⟨rfl, rfl, rfl⟩

/-- Claim C7 counterexample: removing a handle from an empty subscription set
raises `KeyError` — Python `set.remove` is not a no-op on an absent
element. -/
theorem set_remove_absent_cex :
    set_remove (PyVal.websocket 0) [] = .error "KeyError" := rfl

/-- Claim C7 (amended): removing an absent handle raises `KeyError`, so
redundant removal is unsafe; the one reachable removal — the WebSocket
endpoint removing, at disconnect, the handle it added at connect — always
succeeds. -/
theorem set_remove_absent_raises (x : PyVal) (s : List PyVal) (h : x ∉ s) :
    set_remove x s = .error "KeyError" ∧
    websocket_endpoint x s = .ok ((set_add x s).erase x) := by
  constructor
  · unfold set_remove
    rw [if_neg h]
  · unfold websocket_endpoint set_remove
    rw [if_pos]
    unfold set_add
    by_cases hx : x ∈ s
    · rw [if_pos hx]
      exact hx
    · rw [if_neg hx]
      simp

/-- Witness for C7 (amended) at a concrete input: a fresh handle and the empty
subscription set. -/
theorem set_remove_absent_raises_witness :
    (PyVal.websocket 1 ∉ ([] : List PyVal)) ∧
    (set_remove (PyVal.websocket 1) [] = .error "KeyError" ∧
      websocket_endpoint (PyVal.websocket 1) [] =
        .ok ((set_add (PyVal.websocket 1) []).erase (PyVal.websocket 1))) :=
  ⟨by decide, set_remove_absent_raises (PyVal.websocket 1) [] (by decide)⟩

/-- Claim C8: deleting any id — present, absent, or already deleted — returns
the same success acknowledgement, and a second delete of the same id leaves
the store exactly as the first did. -/
theorem delete_processed_agent_data_idempotent (pid : Nat) (db : DbState) :
    (delete_processed_agent_data none pid db).1 = .ok "data deleted successfully" ∧
    (delete_processed_agent_data none pid (delete_processed_agent_data none pid db).2).1 =
      .ok "data deleted successfully" ∧
    (delete_processed_agent_data none pid (delete_processed_agent_data none pid db).2).2 =
      (delete_processed_agent_data none pid db).2 := by
  refine ⟨rfl, rfl, ?_⟩
  unfold delete_processed_agent_data
  simp [List.filter_filter]

/-- Claim C9: a successful update never changes any row id — the id sequence
of the table is preserved — and the record the endpoint returns carries the
target id itself. -/
theorem update_preserves_id (pid : Nat) (r2 : ProcessedAgentDataRequest) (db : DbState)
    (hex : (db.rows.find? (fun r => r.id == pid)).isSome) :
    (update_processed_agent_data none pid r2 db).2.rows.map Row.id = db.rows.map Row.id ∧
    ∃ rec, (update_processed_agent_data none pid r2 db).1 = .ok rec ∧ rec.id = pid := by
  obtain ⟨r0, hr0⟩ := Option.isSome_iff_exists.mp hex
  have hid : r0.id = pid := by
    have := List.find?_some hr0
    simpa using this
  rw [update_found pid r2 db r0 hr0]
  exact ⟨updateRows_map_id pid r2 db.rows, ⟨_, rfl, hid⟩⟩

/-- Witness for C9: updating id 1 of the one-row sample store. -/
theorem update_preserves_id_witness :
    ((sampleDb.rows.find? (fun r => r.id == 1)).isSome) ∧
    ((update_processed_agent_data none 1 sampleRequest2 sampleDb).2.rows.map Row.id =
        sampleDb.rows.map Row.id ∧
      ∃ rec, (update_processed_agent_data none 1 sampleRequest2 sampleDb).1 = .ok rec ∧
        rec.id = 1) :=
  ⟨by decide, update_preserves_id 1 sampleRequest2 sampleDb (by decide)⟩

/-- Claim C10: whenever the subscription set holds only WebSocket connection
handles — as every reachable execution guarantees, since only
`websocket_endpoint` ever adds to it — `send_data_to_subscribers` returns
having delivered nothing and raised nothing, because the integer `user_id`
never passes the membership guard. -/
theorem send_data_to_subscribers_sends_nothing (user_id : Int) (data : String) (subs : List PyVal)
    (h : ∀ v ∈ subs, v.isWebsocket = true) :
    send_data_to_subscribers user_id data subs = .ok [] := by
  unfold send_data_to_subscribers
  rw [if_neg]
  intro hmem
  have hw := h _ hmem
  simp [PyVal.isWebsocket] at hw

/-- Witness for C10: a set of two WebSocket handles and user_id 0. -/
theorem send_data_to_subscribers_sends_nothing_witness :
    (∀ v ∈ [PyVal.websocket 0, PyVal.websocket 1], v.isWebsocket = true) ∧
    send_data_to_subscribers 0 "payload" [PyVal.websocket 0, PyVal.websocket 1] = .ok [] :=
  ⟨by decide, send_data_to_subscribers_sends_nothing 0 "payload"
    [PyVal.websocket 0, PyVal.websocket 1] (by decide)⟩

end ProcessedAgentService
